import Mathlib

/-!
Verification of the images pipeline (`scrapy/contrib/pipeline/images.py`).

This file gives a shallow embedding of the pipeline's data model and
operations: the key deriver (`image_key` / `thumb_key`, backed by a full
SHA-1 implementation mirroring `hashlib.sha1(...).hexdigest()`), the
image normalizer (`convert_image` over a modelled PIL), the filesystem
storage backend (`FSImagesStore`: `persist_image`, `stat_image`,
`_mkdir`, `domain_closed`), and the orchestrator hooks
(`media_to_download`, `media_downloaded`, `image_downloaded`).

Machine floats (`time.time()` arithmetic) are embedded as exact
rationals; byte strings are lists of naturals below 256; Python
exceptions are `Except` values; the filesystem is an explicit state
threaded through the operations, with a write log recording every
file-write syscall so "no persistence happened" is a provable statement.
-/

namespace Images

/-! ## Bytes and hex -/

/-- Byte strings (Python 2 `str`): lists of naturals, each below 256. -/
abbrev Bytes := List Nat

/-- UTF-8 encoding of one character (Python 2 byte strings hold the raw
bytes of the URL; for the ASCII URLs the pipeline sees this is the
identity on code points). -/
def charUTF8 (c : Char) : Bytes :=
  let n := c.toNat
  if n < 128 then [n]
  else if n < 2048 then [192 + n / 64, 128 + n % 64]
  else if n < 65536 then [224 + n / 4096, 128 + n / 64 % 64, 128 + n % 64]
  else [240 + n / 262144, 128 + n / 4096 % 64, 128 + n / 64 % 64, 128 + n % 64]

/-- The bytes of a string. -/
def strBytes (s : String) : Bytes :=
  (s.data.map charUTF8).flatten

/-- One lowercase hex digit. -/
def hexDigit (n : Nat) : Char :=
  if n < 10 then Char.ofNat (48 + n) else Char.ofNat (87 + n)

/-- Two lowercase hex digits of one byte. -/
def byteHex (b : Nat) : List Char :=
  [hexDigit (b / 16), hexDigit (b % 16)]

/-- Lowercase hex rendering of a byte string (Python `hexdigest`). -/
def hexStr (bs : Bytes) : String :=
  ⟨(bs.map byteHex).flatten⟩

/-! ## SHA-1 (`hashlib.sha1`)

A complete executable SHA-1 over byte strings, following FIPS 180:
padding, 512-bit blocks, 80-round compression on five 32-bit words. -/

/-- Left rotation of a 32-bit word. -/
def rotl32 (x k : Nat) : Nat :=
  (x * 2 ^ k + x / 2 ^ (32 - k)) % 2 ^ 32

/-- Big-endian 4-byte rendering of a 32-bit word. -/
def toBE4 (x : Nat) : Bytes :=
  [x / 2 ^ 24 % 256, x / 2 ^ 16 % 256, x / 2 ^ 8 % 256, x % 256]

/-- Big-endian 8-byte rendering of the message bit length. -/
def toBE8 (x : Nat) : Bytes :=
  [x / 2 ^ 56 % 256, x / 2 ^ 48 % 256, x / 2 ^ 40 % 256, x / 2 ^ 32 % 256,
   x / 2 ^ 24 % 256, x / 2 ^ 16 % 256, x / 2 ^ 8 % 256, x % 256]

/-- SHA-1 padding: append `0x80`, zeros to 56 mod 64, then the bit
length as 8 big-endian bytes. -/
def sha1pad (msg : Bytes) : Bytes :=
  let z := (119 - msg.length % 64) % 64
  msg ++ [128] ++ List.replicate z 0 ++ toBE8 (8 * msg.length)

/-- The 64-byte blocks of a padded message. -/
def sha1blocks (padded : Bytes) : List Bytes :=
  (List.range (padded.length / 64)).map (fun i => ((padded.drop (64 * i)).take 64))

/-- The sixteen 32-bit big-endian words of one block. -/
def blockWords (b : Bytes) : List Nat :=
  (List.range 16).map (fun i =>
    b.getD (4 * i) 0 * 2 ^ 24 + b.getD (4 * i + 1) 0 * 2 ^ 16 +
    b.getD (4 * i + 2) 0 * 2 ^ 8 + b.getD (4 * i + 3) 0)

/-- Message schedule: extend sixteen words to eighty. -/
def sha1schedule (ws : List Nat) : List Nat :=
  (List.range 64).foldl
    (fun w i =>
      w ++ [rotl32 (Nat.xor (Nat.xor (w.getD (i + 13) 0) (w.getD (i + 8) 0))
                            (Nat.xor (w.getD (i + 2) 0) (w.getD i 0))) 1])
    ws

/-- The round function and constant of round `i`. -/
def sha1f (i b c d : Nat) : Nat × Nat :=
  if i < 20 then (Nat.lor (Nat.land b c) (Nat.land (2 ^ 32 - 1 - b) d), 1518500249)
  else if i < 40 then (Nat.xor (Nat.xor b c) d, 1859775393)
  else if i < 60 then
    (Nat.lor (Nat.lor (Nat.land b c) (Nat.land b d)) (Nat.land c d), 2400959708)
  else (Nat.xor (Nat.xor b c) d, 3395469782)

/-- One block of SHA-1 compression. -/
def sha1compress (h : Nat × Nat × Nat × Nat × Nat) (block : Bytes) :
    Nat × Nat × Nat × Nat × Nat :=
  let w := sha1schedule (blockWords block)
  let ⟨h0, h1, h2, h3, h4⟩ := h
  let ⟨a, b, c, d, e⟩ :=
    (List.range 80).foldl
      (fun (st : Nat × Nat × Nat × Nat × Nat) i =>
        let ⟨a, b, c, d, e⟩ := st
        let ⟨f, k⟩ := sha1f i b c d
        ((rotl32 a 5 + f + e + k + w.getD i 0) % 2 ^ 32, a, rotl32 b 30, c, d))
      (h0, h1, h2, h3, h4)
  ((h0 + a) % 2 ^ 32, (h1 + b) % 2 ^ 32, (h2 + c) % 2 ^ 32,
   (h3 + d) % 2 ^ 32, (h4 + e) % 2 ^ 32)

/-- The 20-byte SHA-1 digest of a byte string. -/
def sha1 (msg : Bytes) : Bytes :=
  let h :=
    (sha1blocks (sha1pad msg)).foldl sha1compress
      (1732584193, 4023233417, 2562383102, 271733878, 3285377520)
  toBE4 h.1 ++ toBE4 h.2.1 ++ toBE4 h.2.2.1 ++ toBE4 h.2.2.2.1 ++ toBE4 h.2.2.2.2

/-- Embeds `hashlib.sha1(url).hexdigest()`: lowercase hex of the digest. -/
def sha1hex (s : String) : String :=
  hexStr (sha1 (strBytes s))

/-! ## Key deriver (`ImagesPipeline.image_key` / `thumb_key`) -/

/-- Embeds `'full/%s.jpg' % hashlib.sha1(url).hexdigest()`. -/
def image_key (url : String) : String :=
  "full/" ++ sha1hex url ++ ".jpg"

/-- Embeds `'thumbs/%s/%s.jpg' % (thumb_id, hashlib.sha1(url).hexdigest())`. -/
def thumb_key (url : String) (thumb_id : String) : String :=
  "thumbs/" ++ thumb_id ++ "/" ++ sha1hex url ++ ".jpg"

/-! ## Python path and URI helpers -/

/-- Embeds `os.path.join(basedir, key)` for the relative keys the pipeline
produces. -/
def pyJoin (basedir key : String) : String :=
  basedir ++ "/" ++ key

/-- Split a character list at every slash. -/
def splitOnSlash : List Char → List (List Char)
  | [] => [[]]
  | c :: rest =>
      let r := splitOnSlash rest
      if c = '/' then [] :: r else (c :: r.headD []) :: r.tail

/-- Embeds `os.path.dirname`: everything before the final slash. -/
def pyDirname (p : String) : String :=
  ⟨List.intercalate ['/'] (splitOnSlash p.data).dropLast⟩

/-- The directory together with all its ancestors, as created by
`os.makedirs`. -/
def ancestorDirs (p : String) : List String :=
  let parts := splitOnSlash p.data
  (List.range parts.length).map (fun i => ⟨List.intercalate ['/'] (parts.take (i + 1))⟩)

/-- A character the `urlparse` scheme parser accepts. -/
def isSchemeChar (c : Char) : Bool :=
  c.isAlpha || c.isDigit || c = '+' || c = '-' || c = '.'

/-- Embeds `urlparse.urlparse(uri).scheme`: the lowercased text before the
first colon when it is a nonempty run of scheme characters, else the
empty string. -/
def pyScheme (uri : String) : String :=
  let pre := uri.data.takeWhile (fun c => c ≠ ':')
  if pre.length < uri.data.length ∧ pre ≠ [] ∧ pre.all isSchemeChar then
    ⟨pre.map Char.toLower⟩
  else ""

/-- Everything after the first occurrence of `://`, when there is
one. -/
def afterSchemeMark : List Char → Option (List Char)
  | ':' :: '/' :: '/' :: rest => some rest
  | _ :: rest => afterSchemeMark rest
  | [] => none

/-- Embeds `basedir.split('://', 1)[1]` when `'://' in basedir`, else the
string itself (the `FSImagesStore.__init__` scheme strip). -/
def stripSchemeMark (basedir : String) : String :=
  match afterSchemeMark basedir.data with
  | some rest => ⟨rest⟩
  | none => basedir

/-- Split a character list at the first slash, when there is one. -/
def splitFirstSlash : List Char → Option (List Char × List Char)
  | [] => none
  | '/' :: rest => some ([], rest)
  | c :: rest => (splitFirstSlash rest).map (fun p => (c :: p.1, p.2))

/-! ## Modelled PIL (`Image`)

Modelled from the spec: the Python Imaging Library is an external
library (not part of this repository). §4.2 of the spec requires:
decoding raw bytes (failing on unsupported bytes), a canonical
three-channel color mode, aspect-preserving thumbnailing that does not
mutate the input, and a deterministic lossy encoder whose failures are
surfaced. The model uses a transparent codec: a decodable byte string
is a mode code followed by width, height and the pixel payload. -/

/-- An in-memory PIL image: color mode, pixel dimensions and the
underlying pixel payload. -/
structure PILImage where
  mode : String
  width : Nat
  height : Nat
  raw : Bytes
deriving DecidableEq, Repr

/-- Errors raised inside the pipeline (`ImageException` instances and
the uncaught `IOError` of `stat_image`), distinguished the way the
exception messages distinguish them. -/
inductive ImgErr where
  /-- Embeds `Image (http-error)` raised for a non-200 response status. -/
  | httpError
  /-- Embeds `Image (empty-content)` raised for an empty response body. -/
  | emptyContent
  /-- Embeds `IOError` of `Image.open` on undecodable bytes. -/
  | cannotIdentify
  /-- Embeds `Image too small (wxh < mwxmh)`. -/
  | tooSmall (w h mw mh : Nat)
  /-- Embeds `Cannot process image` from the JPEG encoder. -/
  | cannotProcess
  /-- An I/O error from `open()` inside `stat_image`. -/
  | ioError
deriving DecidableEq, Repr

/-- PIL mode string of a decoded mode code. -/
def modeOfCode (m : Nat) : String :=
  if m = 0 then "RGB" else if m = 1 then "L" else if m = 2 then "P" else "RGBA"

/-- Modelled from the spec: `Image.open(StringIO(body))` — decode raw
bytes, failing on bytes that are not a supported image. -/
def pyImageOpen (body : Bytes) : Except ImgErr PILImage :=
  match body with
  | m :: w :: h :: raw => .ok ⟨modeOfCode m, w, h, raw⟩
  | _ => .error .cannotIdentify

/-- Modelled from the spec: `image.convert('RGB')` — re-expresses the
same pixels in the canonical three-channel mode. -/
def pyConvertRGB (im : PILImage) : PILImage :=
  { im with mode := "RGB" }

/-- Largest size fitting inside `(tw, th)` preserving aspect ratio,
as `Image.thumbnail` computes it. -/
def fitWithin (w h tw th : Nat) : Nat × Nat :=
  if w ≤ tw ∧ h ≤ th then (w, h)
  else if h * tw ≤ w * th then (tw, max 1 (h * tw / max 1 w))
  else (max 1 (w * th / max 1 h), th)

/-- Modelled from the spec: `image.copy()` then
`copy.thumbnail(size, Image.ANTIALIAS)` — an aspect-preserving resize
of a copy, leaving the input untouched. -/
def pyThumbnail (im : PILImage) (size : Nat × Nat) : PILImage :=
  let ⟨w, h⟩ := fitWithin im.width im.height size.1 size.2
  { im with width := w, height := h }

/-- Modelled from the spec: the PIL JPEG encoder — `image.save(buf,
'JPEG')` and `image.save(path)` for a `.jpg` path run the same encoder
with the same default options, so both produce this deterministic
serialization; saving a mode JPEG cannot express raises. -/
def pyJpegSave (im : PILImage) : Except ImgErr Bytes :=
  if im.mode = "RGB" ∨ im.mode = "L" ∨ im.mode = "CMYK" then
    .ok (im.width :: im.height :: strBytes im.mode ++ im.raw)
  else .error .cannotProcess

/-- Modelled from the spec: `scrapy.utils.misc.md5sum` (not under
`src/`) — a deterministic checksum of the full contents, rendered as a
lowercase hex string. -/
def md5sum (bs : Bytes) : String :=
  hexStr (toBE8 (bs.foldl (fun h b => (h * 131 + b + 17) % 2 ^ 64) (bs.length % 2 ^ 64)))

/-! ## The filesystem

An explicit state: the set of existing directories, the files (an
association list where a later write shadows an earlier one), and a
write log recording every file-write syscall, so that "no persist call
happened" is the provable statement "the log is unchanged". A file
entry carries its contents, its modification time (what
`os.path.getmtime` reports) and whether `open()` on it succeeds — a
file can be visible to `getmtime` yet unreadable (permissions, or
removal between the two calls). -/

/-- One file on disk. -/
structure FSEntry where
  content : Bytes
  mtime : Rat
  readable : Bool
deriving DecidableEq, Repr

/-- The filesystem state. -/
structure FSState where
  dirs : List String
  files : List (String × FSEntry)
  log : List String
deriving DecidableEq, Repr

/-- The current entry at a path, if any. -/
def lookupFile (fs : FSState) (p : String) : Option FSEntry :=
  (fs.files.find? (fun e => e.1 = p)).map (fun e => e.2)

/-- A file write: overwrites whatever was at the path and appends to
the write log. -/
def writeFile (fs : FSState) (p : String) (content : Bytes) (now : Rat) : FSState :=
  { fs with files := (p, ⟨content, now, true⟩) :: fs.files, log := p :: fs.log }

/-- Embeds `os.makedirs`: creates the directory and all missing ancestors. -/
def pyMakedirs (fs : FSState) (dirname : String) : FSState :=
  { fs with dirs := ancestorDirs dirname ++ fs.dirs }

/-! ## `FSImagesStore` -/

/-- The per-domain `info` object (`MediaPipeline.DomainInfo`) handed to
the hooks; modelled from the spec (`scrapy/contrib/pipeline/media.py`
is not under `src/`): a session context object exposing `domain` (this
file reads `info.domain` and `info.spider`). `oid` models Python object
identity, which is what its dictionary-key equality uses. -/
structure SessionInfo where
  domain : String
  oid : Nat
deriving DecidableEq, Repr

/-- A Python dictionary key as `created_directories` sees them: either
an `info` object (what `persist_image` passes to `_mkdir`) or a domain
string (what `domain_closed` pops). An object never equals a string. -/
inductive PyDictKey where
  | infoKey (i : SessionInfo)
  | strKey (s : String)
deriving DecidableEq, Repr

/-- The mutable state of an `FSImagesStore` instance. -/
structure FSStore where
  basedir : String
  created_directories : List (PyDictKey × List String)
deriving DecidableEq, Repr

/-- Embeds `defaultdict(set)` lookup: the stored set, or the empty set. -/
def dictGet (d : List (PyDictKey × List String)) (k : PyDictKey) : List String :=
  ((d.find? (fun e => e.1 = k)).map (fun e => e.2)).getD []

/-- Update (or create) the set stored under a key. -/
def dictPut (d : List (PyDictKey × List String)) (k : PyDictKey) (v : List String) :
    List (PyDictKey × List String) :=
  if (d.find? (fun e => e.1 = k)).isSome then
    d.map (fun e => if e.1 = k then (k, v) else e)
  else d ++ [(k, v)]

/-- Embeds `FSImagesStore._mkdir(dirname, domain)`: consults the per-domain
seen-set (a fresh empty set when `domain` is falsy), and only when the
directory is not in it does the creation work — the `os.path.exists`
check and, if needed, `os.makedirs` — then records the directory as
seen. The returned flag reports whether the creation work ran. -/
def mkdirOnce (store : FSStore) (fs : FSState) (dirname : String)
    (domain : Option PyDictKey) : FSStore × FSState × Bool :=
  match domain with
  | none =>
      (store, if fs.dirs.contains dirname then fs else pyMakedirs fs dirname, true)
  | some k =>
      let seen := dictGet store.created_directories k
      if seen.contains dirname then
        ({ store with created_directories := dictPut store.created_directories k seen },
         fs, false)
      else
        ({ store with
            created_directories := dictPut store.created_directories k (dirname :: seen) },
         if fs.dirs.contains dirname then fs else pyMakedirs fs dirname, true)

/-- Embeds `FSImagesStore.__init__(basedir)`: strip a scheme mark, create the
base directory (before `created_directories` exists, so with no domain)
and start with an empty directory cache. -/
def FSStore.init (basedir0 : String) (fs : FSState) : FSStore × FSState :=
  let basedir := stripSchemeMark basedir0
  let fs := if fs.dirs.contains basedir then fs else pyMakedirs fs basedir
  (⟨basedir, []⟩, fs)

/-- Embeds `FSImagesStore.persist_image(key, image, buf, info)`: resolve the
path, ensure its directory exists (memoized per `info`), then
`image.save(absolute_path)` — the image is re-encoded to the path; the
`buf` argument is not what is written. -/
def persist_image (store : FSStore) (fs : FSState) (key : String) (image : PILImage)
    (_buf : Bytes) (info : SessionInfo) (now : Rat) :
    Except ImgErr (FSStore × FSState) :=
  let absolute_path := pyJoin store.basedir key
  let ⟨store', fs', _⟩ := mkdirOnce store fs (pyDirname absolute_path) (some (.infoKey info))
  match pyJpegSave image with
  | .ok bytes => .ok (store', writeFile fs' absolute_path bytes now)
  | .error e => .error e

/-- Backend stat metadata: the Python dict `{}` is `⟨none, none⟩`, a
full result has both fields. -/
structure ImageMetadata where
  last_modified : Option Rat
  checksum : Option String
deriving DecidableEq, Repr

/-- Python truthiness of the metadata dict: nonempty. -/
def dictTruthy (m : ImageMetadata) : Bool :=
  m.last_modified.isSome || m.checksum.isSome

/-- Embeds `FSImagesStore.stat_image(key, info)`: `os.path.getmtime` inside a
catch-all `try` — any failure there returns the empty dict `{}`; then
`open(path, 'rb')` and `md5sum` OUTSIDE the `try` — a read failure
there escapes as an error. -/
def stat_image (store : FSStore) (fs : FSState) (key : String) :
    Except ImgErr ImageMetadata :=
  let absolute_path := pyJoin store.basedir key
  match lookupFile fs absolute_path with
  | none => .ok ⟨none, none⟩
  | some e =>
      if e.readable then .ok ⟨some e.mtime, some (md5sum e.content)⟩
      else .error .ioError

/-- Embeds `FSImagesStore.domain_closed(domain)`:
`self.created_directories.pop(domain, None)`. The signal payload is
modelled from the spec and the file's own usage: `domain` values in
this file are the strings read from `info.domain` (`inc_stats`,
`log.msg`), so the popped key is a domain string. -/
def domain_closed (store : FSStore) (domain : String) : FSStore :=
  { store with
    created_directories :=
      store.created_directories.filter (fun e => ¬ e.1 = .strKey domain) }

/-! ## `ImagesPipeline` -/

/-- The configuration values the pipeline reads from settings. -/
structure ImagesConfig where
  MIN_WIDTH : Nat
  MIN_HEIGHT : Nat
  EXPIRES : Int
  THUMBS : List (String × Nat × Nat)
deriving DecidableEq, Repr

/-- An HTTP response as the hooks see it: status code and body. -/
structure Response where
  status : Nat
  body : Bytes
deriving DecidableEq, Repr

/-- The `{'url': ..., 'path': ..., 'checksum': ...}` dict returned by
`media_downloaded` and by the skip branch of `media_to_download`. -/
structure PersistedResult where
  url : String
  path : String
  checksum : Option String
deriving DecidableEq, Repr

/-- Embeds `ImagesPipeline.convert_image(image, size)`: convert to RGB when
needed; for a thumbnail, resize a copy to fit `size`; then encode to
JPEG into a fresh buffer, wrapping encoder failures. Returns the
(converted) image together with the encoded bytes. -/
def convert_image (image : PILImage) (size : Option (Nat × Nat)) :
    Except ImgErr (PILImage × Bytes) :=
  let image := if image.mode ≠ "RGB" then pyConvertRGB image else image
  let image := match size with
    | some sz => pyThumbnail image sz
    | none => image
  match pyJpegSave image with
  | .ok buf => .ok (image, buf)
  | .error _ => .error .cannotProcess

/-- The `_onsuccess` closure of `ImagesPipeline.media_to_download`,
applied to the stat result (`None` from the S3 backend's non-200
branch, or a metadata dict). `key` is the primary key bound in the
enclosing call before the deferred fires. Returns the skip result, or
`none` to force a download. -/
def onsuccess (EXPIRES : Int) (now : Rat) (url key : String)
    (result : Option ImageMetadata) : Option PersistedResult :=
  match result with
  | none => none
  | some r =>
      if ¬ dictTruthy r then none
      else
        match r.last_modified with
        | none => none
        | some lm =>
            if lm = 0 then none
            else
              let age_seconds := now - lm
              let age_days := age_seconds / 60 / 60 / 24
              if age_days > (EXPIRES : Rat) then none
              else some ⟨url, key, r.checksum⟩

/-- Embeds `ImagesPipeline.media_to_download(request, info)` over the
filesystem backend: derive the primary key, stat it, and classify. The
`addCallbacks(_onsuccess, lambda _: None)` errback turns every stat
failure into `None`, the force-download outcome. The hook only reads
the filesystem (no store or filesystem state is returned), and a
`some` result suppresses the fetch in the calling engine. -/
def media_to_download (EXPIRES : Int) (store : FSStore) (fs : FSState)
    (now : Rat) (url : String) : Option PersistedResult :=
  let key := image_key url
  match stat_image store fs key with
  | .error _ => none
  | .ok result => onsuccess EXPIRES now url key (some result)

/-- The thumbnail tail of the `get_images` generator as
`image_downloaded` consumes it: for each configured `(thumb_id, size)`,
convert a copy of the (already converted) primary image and persist it;
the first failure stops the loop, keeping what was already persisted. -/
def persistThumbs (store : FSStore) (fs : FSState) (info : SessionInfo) (now : Rat)
    (url : String) (image : PILImage) :
    List (String × Nat × Nat) → Except ImgErr Unit × FSStore × FSState
  | [] => (.ok (), store, fs)
  | (thumb_id, size) :: rest =>
      match convert_image image (some size) with
      | .error e => (.error e, store, fs)
      | .ok (thumb_image, thumb_buf) =>
          match persist_image store fs (thumb_key url thumb_id) thumb_image thumb_buf
              info now with
          | .error e => (.error e, store, fs)
          | .ok (store', fs') => persistThumbs store' fs' info now url image rest

/-- Embeds `ImagesPipeline.image_downloaded(response, request, info)` fused
with the `get_images` generator it drains: decode, reject a too-small
primary, convert and persist the primary (its buffer is `first_buf`),
then convert and persist each thumbnail; finally return
`md5sum(first_buf)`. The store and filesystem states are returned on
every path. -/
def image_downloaded (cfg : ImagesConfig) (store : FSStore) (fs : FSState)
    (info : SessionInfo) (now : Rat) (response : Response) (url : String) :
    Except ImgErr String × FSStore × FSState :=
  let key := image_key url
  match pyImageOpen response.body with
  | .error e => (.error e, store, fs)
  | .ok orig_image =>
      if orig_image.width < cfg.MIN_WIDTH ∨ orig_image.height < cfg.MIN_HEIGHT then
        (.error (.tooSmall orig_image.width orig_image.height cfg.MIN_WIDTH cfg.MIN_HEIGHT),
         store, fs)
      else
        match convert_image orig_image none with
        | .error e => (.error e, store, fs)
        | .ok (image, buf) =>
            match persist_image store fs key image buf info now with
            | .error e => (.error e, store, fs)
            | .ok (store1, fs1) =>
                match persistThumbs store1 fs1 info now url image cfg.THUMBS with
                | (.error e, store2, fs2) => (.error e, store2, fs2)
                | (.ok _, store2, fs2) => (.ok (md5sum buf), store2, fs2)

/-- Embeds `ImagesPipeline.media_downloaded(response, request, info)`:
validate the response — non-200 status raises the http-error, an empty
body raises the empty-content error — then process via
`image_downloaded` and assemble the result dict from the primary key
and the returned checksum. -/
def media_downloaded (cfg : ImagesConfig) (store : FSStore) (fs : FSState)
    (info : SessionInfo) (now : Rat) (response : Response) (url : String) :
    Except ImgErr PersistedResult × FSStore × FSState :=
  if response.status ≠ 200 then (.error .httpError, store, fs)
  else if response.body = [] then (.error .emptyContent, store, fs)
  else
    let key := image_key url
    match image_downloaded cfg store fs info now response url with
    | (.error e, store', fs') => (.error e, store', fs')
    | (.ok checksum, store', fs') => (.ok ⟨url, key, some checksum⟩, store', fs')

/-! ## Construction (`ImagesPipeline.__init__` / `_get_store`) -/

/-- Failures during pipeline construction. -/
inductive InitErr where
  /-- Embeds `NotConfigured` for a falsy `IMAGES_STORE`. -/
  | notConfigured
  /-- Embeds `KeyError` from `STORE_SCHEMES[scheme]` on an unknown scheme. -/
  | keyError
  /-- Embeds `ValueError` from unpacking an `s3://` URI with no slash. -/
  | valueError
deriving DecidableEq, Repr

/-- The constructed backend. -/
inductive StoreModel where
  | fsStore (store : FSStore)
  | s3Store (bucket rest : String)
deriving DecidableEq, Repr

/-- A tag for each `STORE_SCHEMES` entry. -/
inductive SchemeTag where
  | fsTag
  | s3Tag
deriving DecidableEq, Repr

/-- The `STORE_SCHEMES` dict: `''` and `'file'` map to `FSImagesStore`,
`'s3'` to `S3ImagesStore`; anything else is a `KeyError`. -/
def STORE_SCHEMES (scheme : String) : Option SchemeTag :=
  if scheme = "" then some .fsTag
  else if scheme = "file" then some .fsTag
  else if scheme = "s3" then some .s3Tag
  else none

/-- Embeds `S3ImagesStore.__init__(uri)`: `uri[5:].split('/', 1)` must unpack
into bucket and key root, else the unpacking raises. -/
def s3Init (uri : String) : Except InitErr StoreModel :=
  match splitFirstSlash (uri.data.drop 5) with
  | none => .error .valueError
  | some (bucket, root) => .ok (.s3Store ⟨bucket⟩ ⟨root⟩)

/-- Embeds `ImagesPipeline._get_store(uri)`: parse the scheme, index
`STORE_SCHEMES` (a `KeyError` escapes for an unknown scheme) and run
the selected constructor. -/
def get_store (uri : String) (fs : FSState) : Except InitErr (StoreModel × FSState) :=
  match STORE_SCHEMES (pyScheme uri) with
  | none => .error .keyError
  | some .fsTag => .ok (.fsStore (FSStore.init uri fs).1, (FSStore.init uri fs).2)
  | some .s3Tag =>
      match s3Init uri with
      | .error e => .error e
      | .ok s => .ok (s, fs)

/-- Embeds `ImagesPipeline.__init__()`: a falsy `IMAGES_STORE` raises
`NotConfigured`; otherwise the backend is selected once, here, and any
failure prevents the pipeline from existing. -/
def pipelineInit (store_uri : Option String) (fs : FSState) :
    Except InitErr (StoreModel × FSState) :=
  match store_uri with
  | none => .error .notConfigured
  | some uri => if uri = "" then .error .notConfigured else get_store uri fs

/-! ## Concrete fixtures

Closed inputs used by witnesses and counterexamples: a session for the
domain `example.com`, a store rooted at `img`, a 300×300 RGB response
body in the modelled codec, one configured 50×50 thumbnail variant. -/

/-- Equality of `Except` values is decidable when it is on both
sides. -/
instance exceptDecEq {ε α : Type} [DecidableEq ε] [DecidableEq α] :
    DecidableEq (Except ε α) := fun a b =>
  match a, b with
  | .error e, .error f =>
      if h : e = f then .isTrue (h ▸ rfl) else .isFalse (fun hc => h (Except.error.inj hc))
  | .ok x, .ok y =>
      if h : x = y then .isTrue (h ▸ rfl) else .isFalse (fun hc => h (Except.ok.inj hc))
  | .error _, .ok _ => .isFalse (fun hc => Except.noConfusion hc)
  | .ok _, .error _ => .isFalse (fun hc => Except.noConfusion hc)

/-- The session context. -/
def wInfo : SessionInfo := ⟨"example.com", 1⟩

/-- A store rooted at `img` with an empty directory cache. -/
def wStore : FSStore := ⟨"img", []⟩

/-- A filesystem holding only the empty base directory. -/
def wFS : FSState := ⟨["img"], [], []⟩

/-- Minimum size 100×100, 90-day window, one 50×50 thumbnail. -/
def wCfg : ImagesConfig := ⟨100, 100, 90, [("small", 50, 50)]⟩

/-- The fetched URL. -/
def wURL : String := "http://example.com/a.jpg"

/-- A 200 response whose body decodes to a 300×300 RGB image. -/
def wResp : Response := ⟨200, [0, 300, 300, 7, 8, 9]⟩

/-- The encoded bytes of the primary variant of `wResp`. -/
def wBuf : Bytes := 300 :: 300 :: strBytes "RGB" ++ [7, 8, 9]

/-- The encoded bytes of the 50×50 thumbnail variant of `wResp`. -/
def wThumbBuf : Bytes := 50 :: 50 :: strBytes "RGB" ++ [7, 8, 9]

/-- The store state after `media_downloaded` on the fixtures: both
variant directories are cached for the session. -/
def wStoreOut : FSStore := ⟨"img", [(.infoKey wInfo, ["img/thumbs/small", "img/full"])]⟩

/-- The filesystem after `media_downloaded` on the fixtures at time 5:
the primary and the thumbnail were written, in that order. -/
def wFSOut : FSState :=
  ⟨["img", "img/thumbs", "img/thumbs/small", "img", "img/full", "img"],
   [(pyJoin "img" (thumb_key wURL "small"), ⟨wThumbBuf, 5, true⟩),
    (pyJoin "img" (image_key wURL), ⟨wBuf, 5, true⟩)],
   [pyJoin "img" (thumb_key wURL "small"), pyJoin "img" (image_key wURL)]⟩

/-- A filesystem holding a one-day-old readable primary file for
`wURL`. -/
def skipFS : FSState :=
  ⟨["img", "img/full"], [(pyJoin "img" (image_key wURL), ⟨[1, 2, 3], 86400, true⟩)], []⟩

/-- A filesystem whose file `img/k.jpg` has a modification time but
cannot be opened. -/
def badFS : FSState := ⟨["img"], [("img/k.jpg", ⟨[1, 2], 3, false⟩)], []⟩

/-- A filesystem whose primary file for `wURL` has a modification time
but cannot be opened. -/
def badFSURL : FSState :=
  ⟨["img"], [(pyJoin "img" (image_key wURL), ⟨[1, 2], 3, false⟩)], []⟩

/-- A 300×300 RGB image for the directory-cache scenario. -/
def c8Img : PILImage := ⟨"RGB", 300, 300, [7]⟩

/-- The store after one `persist_image` under key `full/a.jpg`: the
directory cache entry is keyed by the session info object. -/
def c8Store1 : FSStore := ⟨"img", [(.infoKey wInfo, ["img/full"])]⟩

/-- The filesystem after that `persist_image` at time 0. -/
def c8FS1 : FSState :=
  ⟨["img", "img/full", "img"],
   [("img/full/a.jpg", ⟨300 :: 300 :: strBytes "RGB" ++ [7], 0, true⟩)],
   ["img/full/a.jpg"]⟩

/-- The spec's reading of "reports success status": a 2xx code
("`DownloadError` (non-2xx or empty body)"). Stated from the spec's
words, for comparison against the code's check. -/
def specReportsSuccess (status : Nat) : Bool :=
  decide (200 ≤ status) && decide (status < 300)

/-- Whether a constructed backend is the one a `STORE_SCHEMES` entry
names. -/
def storeMatchesTag : StoreModel → SchemeTag → Bool
  | .fsStore _, .fsTag => true
  | .s3Store _ _, .s3Tag => true
  | _, _ => false

/-! ## Helper lemmas -/

/-- Every byte of a big-endian word rendering is below 256. -/
theorem toBE4_mem_lt (x : Nat) : ∀ b ∈ toBE4 x, b < 256 := by
  intro b hb
  simp only [toBE4, List.mem_cons, List.not_mem_nil, or_false] at hb
  rcases hb with rfl | rfl | rfl | rfl <;> omega

/-- A SHA-1 digest has twenty bytes. -/
theorem sha1_length (msg : Bytes) : (sha1 msg).length = 20 := by
  simp [sha1, toBE4]

/-- Every byte of a SHA-1 digest is below 256. -/
theorem sha1_mem_lt (msg : Bytes) : ∀ b ∈ sha1 msg, b < 256 := by
  intro b hb
  simp only [sha1, List.mem_append] at hb
  rcases hb with (((h | h) | h) | h) | h <;> exact toBE4_mem_lt _ _ h

/-- Hex rendering doubles the length. -/
theorem hexStr_length (bs : Bytes) : (hexStr bs).length = 2 * bs.length := by
  show ((bs.map byteHex).flatten).length = 2 * bs.length
  rw [List.length_flatten]
  induction bs with
  | nil => rfl
  | cons b bs ih =>
      simp only [List.map_cons, List.map_cons, List.length_cons, List.sum_cons, byteHex,
        List.length_cons, List.length_nil] at *
      omega

/-- A hex digit of a value below sixteen is a lowercase hex character. -/
theorem hexDigit_mem (n : Nat) (h : n < 16) :
    ("0123456789abcdef").data.contains (hexDigit n) = true := by
  interval_cases n <;> decide

/-- The hex rendering of a byte string uses only lowercase hex
characters. -/
theorem hexStr_all_hex (bs : Bytes) (h : ∀ b ∈ bs, b < 256) :
    ((hexStr bs).data.all fun c => ("0123456789abcdef").data.contains c) = true := by
  show ((bs.map byteHex).flatten.all _) = true
  rw [List.all_eq_true]
  intro c hc
  rw [List.mem_flatten] at hc
  obtain ⟨l, hl, hcl⟩ := hc
  rw [List.mem_map] at hl
  obtain ⟨b, hb, rfl⟩ := hl
  have hb256 := h b hb
  simp only [byteHex, List.mem_cons, List.not_mem_nil, or_false] at hcl
  rcases hcl with rfl | rfl
  · exact hexDigit_mem _ (by omega)
  · exact hexDigit_mem _ (by omega)

/-- Cancel a common literal prelude and tail of a string append. -/
theorem append_affix_cancel (p s a b : String) (h : p ++ a ++ s = p ++ b ++ s) :
    a = b := by
  apply String.ext
  have hd := congrArg String.data h
  rw [String.data_append, String.data_append, String.data_append, String.data_append] at hd
  exact List.append_cancel_left (List.append_cancel_right hd)

/-- Primary keys agree exactly when the URL digests agree. -/
theorem image_key_eq_iff (u v : String) :
    image_key u = image_key v ↔ sha1hex u = sha1hex v := by
  constructor
  · intro h
    exact append_affix_cancel "full/" ".jpg" _ _ h
  · intro h
    simp only [image_key, h]

/-- Thumbnail keys for one variant agree exactly when the URL digests
agree. -/
theorem thumb_key_eq_iff (u v t : String) :
    thumb_key u t = thumb_key v t ↔ sha1hex u = sha1hex v := by
  constructor
  · intro h
    exact append_affix_cancel ("thumbs/" ++ t ++ "/") ".jpg" _ _ h
  · intro h
    simp only [thumb_key, h]

/-- A URL digest renders as forty characters. -/
theorem sha1hex_length (s : String) : (sha1hex s).length = 40 := by
  rw [sha1hex, hexStr_length, sha1_length]

/-- A primary key has forty-nine characters. -/
theorem image_key_length (u : String) : (image_key u).length = 49 := by
  simp only [image_key, String.length_append, sha1hex_length]
  rfl

/-- A thumbnail key is longer than any primary key. -/
theorem thumb_key_length (u t : String) : (thumb_key u t).length = 52 + t.length := by
  simp only [thumb_key, String.length_append, sha1hex_length]
  have h1 : "thumbs/".length = 7 := rfl
  have h2 : "/".length = 1 := rfl
  have h3 : ".jpg".length = 4 := rfl
  omega

/-- Inside one base directory, a primary path never collides with a
thumbnail path. -/
theorem primary_path_ne_thumb_path (b u w tid : String) :
    pyJoin b (image_key u) ≠ pyJoin b (thumb_key w tid) := by
  intro h
  have hl := congrArg String.length h
  simp only [pyJoin, String.length_append, image_key_length, thumb_key_length] at hl
  omega

/-- Python's float division chain `/ 60 / 60 / 24` is division by
86400. -/
theorem age_days_eq (x : Rat) : x / 60 / 60 / 24 = x / 86400 := by
  rw [div_div, div_div]
  norm_num

/-- The skip branch of `_onsuccess` is the only `some` producer, and it
assembles exactly `{url, key, cached checksum}`. -/
theorem onsuccess_some (E : Int) (now : Rat) (url key : String)
    (result : Option ImageMetadata) (r : PersistedResult)
    (h : onsuccess E now url key result = some r) :
    ∃ m, result = some m ∧ r = ⟨url, key, m.checksum⟩ := by
  cases result with
  | none => exact absurd h (by simp [onsuccess])
  | some m =>
      refine ⟨m, rfl, ?_⟩
      simp only [onsuccess] at h
      split at h
      · cases h
      · split at h
        · cases h
        · split at h
          · cases h
          · split at h
            · cases h
            · injection h with h
              exact h.symm

set_option maxRecDepth 1000000
set_option maxHeartbeats 1000000

/-! ## The claims -/

/-- Claim C3. Key derivation is deterministic and content-addressed: the
primary key is `"full/" + lowercase-hex(sha1(u)) + ".jpg"` and the
variant key for identifier `t` is
`"thumbs/" + t + "/" + lowercase-hex(sha1(u)) + ".jpg"`; `image_key`
and `thumb_key` are pure functions, so repeated calls on the same url
(and variant identifier) are the identical key, and two urls share a
key exactly when their SHA-1 digests collide, so distinct URLs yield
distinct keys with overwhelming probability. The digest renders as
forty lowercase hex characters. -/
theorem claim_C3_key_derivation (u v t : String) :
    image_key u = "full/" ++ sha1hex u ++ ".jpg"
    ∧ thumb_key u t = "thumbs/" ++ t ++ "/" ++ sha1hex u ++ ".jpg"
    ∧ (image_key u = image_key v ↔ sha1hex u = sha1hex v)
    ∧ (thumb_key u t = thumb_key v t ↔ sha1hex u = sha1hex v)
    ∧ (sha1hex u).length = 40
    ∧ ((sha1hex u).data.all fun c => ("0123456789abcdef").data.contains c) = true := by
  refine ⟨rfl, rfl, image_key_eq_iff u v, thumb_key_eq_iff u v t, sha1hex_length u, ?_⟩
  exact hexStr_all_hex _ (sha1_mem_lt _)

/-- Witness for C3: the fixture URL's primary key evaluates to its
known SHA-1 digest (matching `hashlib.sha1`), and the digest length
conjunct of the claim instantiates there. -/
theorem claim_C3_witness :
    image_key wURL = "full/99e087d9e04c1527ebd8026fd3cc31035e6c7210.jpg"
    ∧ (sha1hex wURL).length = 40 :=
  ⟨by decide, (claim_C3_key_derivation wURL "v" "t").2.2.2.2.1⟩

/-- Claim C10. A stat result whose `last_modified` value is 0 (the Unix
epoch) classifies as requiring download — `onsuccess` returns no skip
result — even though the metadata dict is nonempty (truthy) and the
timestamp field is present: the `if not last_modified` truthiness test
does not distinguish the value 0 from an absent field. -/
theorem claim_C10_epoch_forces_download (E : Int) (now : Rat) (url key : String)
    (ck : Option String) :
    dictTruthy ⟨some 0, ck⟩ = true
    ∧ onsuccess E now url key (some ⟨some 0, ck⟩) = none := by
  exact ⟨rfl, by simp [onsuccess, dictTruthy]⟩

/-- Witness for C10 at concrete inputs: a truthy dict carrying
`last_modified = 0` and a checksum still forces download. -/
theorem claim_C10_witness :
    dictTruthy ⟨some 0, some "c0"⟩ = true
    ∧ onsuccess 90 864000 "u0" "k0" (some ⟨some 0, some "c0"⟩) = none :=
  claim_C10_epoch_forces_download 90 864000 "u0" "k0" (some "c0")

/-- Claim C2 (amended). The freshness decision is a function of backend
metadata and current time: a missing stat result (`None`), an empty
metadata dict, an absent `last_modified`, and — forced by the
counterexample — a `last_modified` equal to 0 (Python falsiness) all
classify as DOWNLOAD; otherwise, with `ageDays = (now - lm) / 86400`,
the outcome is DOWNLOAD exactly when `ageDays > expiryWindowDays` and
SKIP (carrying the cached checksum) when `ageDays ≤ expiryWindowDays`,
the boundary counting as uptodate. -/
theorem claim_C2_freshness_classifier (E : Int) (now lm : Rat) (url key : String)
    (r : ImageMetadata) :
    onsuccess E now url key none = none
    ∧ (dictTruthy r = false → onsuccess E now url key (some r) = none)
    ∧ (r.last_modified = none → onsuccess E now url key (some r) = none)
    ∧ (r.last_modified = some 0 → onsuccess E now url key (some r) = none)
    ∧ (r.last_modified = some lm → lm ≠ 0 →
        ((now - lm) / 86400 > (E : Rat) → onsuccess E now url key (some r) = none)
        ∧ ((now - lm) / 86400 ≤ (E : Rat) →
            onsuccess E now url key (some r) = some ⟨url, key, r.checksum⟩)) := by
  refine ⟨rfl, ?_, ?_, ?_, ?_⟩
  · intro h
    simp [onsuccess, h]
  · intro h
    rcases hdt : dictTruthy r <;> simp [onsuccess, h, hdt]
  · intro h
    have hdt : dictTruthy r = true := by simp [dictTruthy, h]
    simp [onsuccess, h, hdt]
  · intro hlm hne
    have hdt : dictTruthy r = true := by simp [dictTruthy, hlm]
    have hrw : (now - lm) / 60 / 60 / 24 = (now - lm) / 86400 := age_days_eq _
    constructor
    · intro hgt
      simp [onsuccess, hlm, hdt, hne, hrw, hgt]
    · intro hle
      have hnotgt : ¬ ((now - lm) / 86400 > (E : Rat)) := not_lt.mpr hle
      simp [onsuccess, hlm, hdt, hne, hrw, hnotgt]

/-- Claim C2 counterexample. Metadata with `last_modified` present and
equal to 0 and a cached checksum, at `now` ten days past the epoch with
a 90-day window: `ageDays = 10 ≤ 90`, so the claim demands SKIP, but
the classifier forces DOWNLOAD. -/
theorem claim_C2_counterexample :
    (⟨some 0, some "c"⟩ : ImageMetadata).last_modified = some 0
    ∧ dictTruthy ⟨some 0, some "c"⟩ = true
    ∧ ((864000 : Rat) - 0) / 86400 ≤ ((90 : Int) : Rat)
    ∧ onsuccess 90 864000 "u" "k" (some ⟨some 0, some "c"⟩) = none := by
  refine ⟨rfl, rfl, by norm_num, by simp [onsuccess, dictTruthy]⟩

/-- Witness for C2: one day old inside a 90-day window skips with the
cached checksum; one hundred days old downloads. -/
theorem claim_C2_witness :
    onsuccess 90 172800 "u" "k" (some ⟨some 86400, some "c"⟩) = some ⟨"u", "k", some "c"⟩
    ∧ onsuccess 90 (101 * 86400) "u" "k" (some ⟨some 86400, some "c"⟩) = none := by
  constructor
  · exact ((claim_C2_freshness_classifier 90 172800 86400 "u" "k"
      ⟨some 86400, some "c"⟩).2.2.2.2 rfl (by norm_num)).2 (by norm_num)
  · exact ((claim_C2_freshness_classifier 90 (101 * 86400) 86400 "u" "k"
      ⟨some 86400, some "c"⟩).2.2.2.2 rfl (by norm_num)).1 (by norm_num)

/-- Claim C4. Every SKIP outcome of `media_to_download` is
`{url, path, checksum}` with `path` the primary key freshly derived
from that same request URL and `checksum` the one reported by the
backend stat. The hook returns no store or filesystem state — its type
alone shows no processing or persistence happens on this path — and a
`some` result is what suppresses the fetch in the calling engine. -/
theorem claim_C4_skip_result (E : Int) (store : FSStore) (fs : FSState) (now : Rat)
    (url : String) (r : PersistedResult)
    (h : media_to_download E store fs now url = some r) :
    r.url = url ∧ r.path = image_key url
    ∧ ∃ m, stat_image store fs (image_key url) = .ok m ∧ r.checksum = m.checksum := by
  simp only [media_to_download] at h
  cases hs : stat_image store fs (image_key url) with
  | error e => rw [hs] at h; cases h
  | ok m =>
      rw [hs] at h
      obtain ⟨m', hm', rfl⟩ := onsuccess_some _ _ _ _ _ _ h
      obtain rfl : m = m' := Option.some.inj hm'
      exact ⟨rfl, rfl, m, rfl, rfl⟩


/-- Witness for C4: a one-day-old stored primary file for the fixture
URL produces a skip result carrying that URL, its primary key and the
stat checksum. -/
theorem claim_C4_witness :
    (⟨wURL, image_key wURL, some (md5sum [1, 2, 3])⟩ : PersistedResult).url = wURL
    ∧ (⟨wURL, image_key wURL, some (md5sum [1, 2, 3])⟩ : PersistedResult).path = image_key wURL
    ∧ ∃ m, stat_image wStore skipFS (image_key wURL) = .ok m
        ∧ (⟨wURL, image_key wURL, some (md5sum [1, 2, 3])⟩ : PersistedResult).checksum
            = m.checksum :=
  claim_C4_skip_result 90 wStore skipFS 172800 wURL _ (by with_unfolding_all rfl)

/-- Claim C5 (amended). Failures while reading the last-modified time
(in particular a missing file) make `stat_image` return the empty
metadata dict rather than an error; an I/O failure in the subsequent
content read — outside the catch-all — escapes `stat_image` as an
error; and at the orchestrator every stat failure degrades to the
DOWNLOAD decision via the errback instead of failing the item. -/
theorem claim_C5_stat_failures (store : FSStore) (fs : FSState) (key : String)
    (e : FSEntry) (E : Int) (now : Rat) (url : String) :
    (lookupFile fs (pyJoin store.basedir key) = none →
      stat_image store fs key = .ok ⟨none, none⟩)
    ∧ (lookupFile fs (pyJoin store.basedir key) = some e → e.readable = false →
        stat_image store fs key = .error .ioError)
    ∧ (∀ err, stat_image store fs (image_key url) = .error err →
        media_to_download E store fs now url = none) := by
  refine ⟨?_, ?_, ?_⟩
  · intro h
    simp [stat_image, h]
  · intro h hr
    simp [stat_image, h, hr]
  · intro err h
    simp [media_to_download, h]

/-- Claim C5 counterexample. A file visible to `getmtime` but unreadable
on `open()`: `stat_image` propagates an I/O error instead of returning
the empty metadata the claim promises. -/
theorem claim_C5_counterexample :
    stat_image wStore badFS "k.jpg" = .error .ioError
    ∧ stat_image wStore badFS "k.jpg" ≠ .ok ⟨none, none⟩ := by
  have h1 : stat_image wStore badFS "k.jpg" = .error .ioError := by
    with_unfolding_all rfl
  exact ⟨h1, fun h => Except.noConfusion (h1.symm.trans h)⟩

/-- Witness for C5: a missing file stats as the empty dict, an
unreadable file stats as an error, and that error degrades to the
DOWNLOAD decision in `media_to_download`. -/
theorem claim_C5_witness :
    stat_image wStore wFS "k.jpg" = .ok ⟨none, none⟩
    ∧ stat_image wStore badFS "k.jpg" = .error .ioError
    ∧ media_to_download 90 wStore badFSURL 0 wURL = none := by
  refine ⟨(claim_C5_stat_failures wStore wFS "k.jpg" ⟨[], 0, true⟩ 90 0 wURL).1
      (by with_unfolding_all rfl),
    (claim_C5_stat_failures wStore badFS "k.jpg" ⟨[1, 2], 3, false⟩ 90 0 wURL).2.1
      (by with_unfolding_all rfl) rfl,
    (claim_C5_stat_failures wStore badFSURL "x" ⟨[], 0, true⟩ 90 0 wURL).2.2 .ioError
      (by with_unfolding_all rfl)⟩

/-- Claim C6. A decoded image below the configured minimum width or
height makes processing fail with the too-small error before any
variant is encoded or persisted: `media_downloaded` returns exactly the
too-small error together with the *unchanged* store and filesystem
states — in particular the write log is untouched, so no persist call
was made for the primary or for any thumbnail. -/
theorem claim_C6_too_small_rejection (cfg : ImagesConfig) (store : FSStore)
    (fs : FSState) (info : SessionInfo) (now : Rat) (resp : Response) (url : String)
    (orig : PILImage)
    (hst : resp.status = 200) (hb : resp.body ≠ [])
    (hopen : pyImageOpen resp.body = .ok orig)
    (hsmall : orig.width < cfg.MIN_WIDTH ∨ orig.height < cfg.MIN_HEIGHT) :
    media_downloaded cfg store fs info now resp url
      = (.error (.tooSmall orig.width orig.height cfg.MIN_WIDTH cfg.MIN_HEIGHT),
         store, fs) := by
  have h1 : ¬ (resp.status ≠ 200) := by simp [hst]
  simp only [media_downloaded, image_downloaded, if_neg h1, if_neg hb, hopen,
    if_pos hsmall]

/-- Witness for C6: a 50×50 image against a 100×100 minimum is
rejected with the too-small error and the states come back unchanged. -/
theorem claim_C6_witness :
    media_downloaded wCfg wStore wFS wInfo 5 ⟨200, [0, 50, 50, 7]⟩ wURL
      = (.error (.tooSmall 50 50 100 100), wStore, wFS) :=
  claim_C6_too_small_rejection wCfg wStore wFS wInfo 5 ⟨200, [0, 50, 50, 7]⟩ wURL
    ⟨"RGB", 50, 50, [7]⟩ rfl (by decide) rfl (Or.inl (by decide))

/-- The decoder `pyImageOpen` only fails with the cannot-identify error. -/
theorem pyImageOpen_error (body : Bytes) (e : ImgErr)
    (h : pyImageOpen body = .error e) : e = .cannotIdentify := by
  simp only [pyImageOpen] at h
  split at h
  · cases h
  · exact (Except.error.inj h).symm

/-- The modelled JPEG encoder only fails with the cannot-process
error. -/
theorem pyJpegSave_error (im : PILImage) (e : ImgErr)
    (h : pyJpegSave im = .error e) : e = .cannotProcess := by
  simp only [pyJpegSave] at h
  split at h
  · cases h
  · exact (Except.error.inj h).symm

/-- The converter `convert_image` only fails with the cannot-process error. -/
theorem convert_image_error (im : PILImage) (sz : Option (Nat × Nat)) (e : ImgErr)
    (h : convert_image im sz = .error e) : e = .cannotProcess := by
  simp only [convert_image] at h
  split at h
  · cases h
  · exact (Except.error.inj h).symm

/-- The backend write `persist_image` only fails with the cannot-process error. -/
theorem persist_image_error (store : FSStore) (fs : FSState) (key : String)
    (image : PILImage) (buf : Bytes) (info : SessionInfo) (now : Rat) (e : ImgErr)
    (h : persist_image store fs key image buf info now = .error e) :
    e = .cannotProcess := by
  simp only [persist_image] at h
  split at h
  · cases h
  · rename_i e2 heq
    cases h
    exact pyJpegSave_error _ _ heq

/-- The thumbnail loop only fails with the cannot-process error. -/
theorem persistThumbs_error (info : SessionInfo) (now : Rat) (url : String)
    (image : PILImage) (thumbs : List (String × Nat × Nat)) :
    ∀ store fs e s2 f2,
      persistThumbs store fs info now url image thumbs = (.error e, s2, f2) →
      e = .cannotProcess := by
  induction thumbs with
  | nil =>
      intro store fs e s2 f2 h
      simp [persistThumbs] at h
  | cons t rest ih =>
      intro store fs e s2 f2 h
      obtain ⟨tid, sz⟩ := t
      simp only [persistThumbs] at h
      split at h
      · rename_i e2 heq
        injection h with h1 h2
        injection h1 with h1
        subst h1
        exact convert_image_error _ _ _ heq
      · rename_i ti tb heq
        split at h
        · rename_i e3 heq2
          injection h with h1 h2
          injection h1 with h1
          subst h1
          exact persist_image_error _ _ _ _ _ _ _ _ heq2
        · exact ih _ _ _ _ _ h

/-- Errors escaping `image_downloaded` are processing errors, never the
two download-validation errors raised earlier by `media_downloaded`. -/
theorem image_downloaded_error (cfg : ImagesConfig) (store : FSStore) (fs : FSState)
    (info : SessionInfo) (now : Rat) (resp : Response) (url : String) (e : ImgErr)
    (s2 : FSStore) (f2 : FSState)
    (h : image_downloaded cfg store fs info now resp url = (.error e, s2, f2)) :
    e ≠ .httpError ∧ e ≠ .emptyContent := by
  simp only [image_downloaded] at h
  split at h
  · rename_i e2 heq
    injection h with h1 h2
    injection h1 with h1
    subst h1
    rw [pyImageOpen_error _ _ heq]
    exact ⟨fun hc => ImgErr.noConfusion hc, fun hc => ImgErr.noConfusion hc⟩
  · rename_i orig heq
    split at h
    · injection h with h1 h2
      injection h1 with h1
      subst h1
      exact ⟨fun hc => ImgErr.noConfusion hc, fun hc => ImgErr.noConfusion hc⟩
    · split at h
      · rename_i e2 heq2
        injection h with h1 h2
        injection h1 with h1
        subst h1
        rw [convert_image_error _ _ _ heq2]
        exact ⟨fun hc => ImgErr.noConfusion hc, fun hc => ImgErr.noConfusion hc⟩
      · rename_i image buf heq2
        split at h
        · rename_i e3 heq3
          injection h with h1 h2
          injection h1 with h1
          subst h1
          rw [persist_image_error _ _ _ _ _ _ _ _ heq3]
          exact ⟨fun hc => ImgErr.noConfusion hc, fun hc => ImgErr.noConfusion hc⟩
        · rename_i s1 f1 heq3
          split at h
          · rename_i e4 s3 f3 heq4
            injection h with h1 h2
            injection h1 with h1
            subst h1
            rw [persistThumbs_error _ _ _ _ _ _ _ _ _ _ heq4]
            exact ⟨fun hc => ImgErr.noConfusion hc, fun hc => ImgErr.noConfusion hc⟩
          · injection h with h1 h2
            cases h1

/-- Claim C7 (amended). `media_downloaded` raises a download error
exactly when the response status is not 200 or the body is empty (the
code's success test is `status == 200`, not the 2xx class); for every
status-200 non-empty response the validation passes and processing
proceeds, its outcome becoming the hook's outcome. -/
theorem claim_C7_download_validation (cfg : ImagesConfig) (store : FSStore)
    (fs : FSState) (info : SessionInfo) (now : Rat) (resp : Response) (url : String) :
    (((media_downloaded cfg store fs info now resp url).1 = .error .httpError
        ∨ (media_downloaded cfg store fs info now resp url).1 = .error .emptyContent)
      ↔ (resp.status ≠ 200 ∨ resp.body = []))
    ∧ (∀ ck s2 f2, resp.status = 200 → resp.body ≠ [] →
        image_downloaded cfg store fs info now resp url = (.ok ck, s2, f2) →
        media_downloaded cfg store fs info now resp url
          = (.ok ⟨url, image_key url, some ck⟩, s2, f2)) := by
  constructor
  · constructor
    · intro hor
      by_cases hst : resp.status = 200
      · by_cases hb : resp.body = []
        · exact Or.inr hb
        · exfalso
          have h1 : ¬ (resp.status ≠ 200) := by simp [hst]
          rcases hid : image_downloaded cfg store fs info now resp url with ⟨res, s2, f2⟩
          cases res with
          | error e =>
              have hmd : (media_downloaded cfg store fs info now resp url).1
                  = .error e := by
                simp [media_downloaded, if_neg h1, if_neg hb, hid]
              have hne := image_downloaded_error cfg store fs info now resp url e s2 f2 hid
              rcases hor with h | h
              · exact hne.1 (Except.error.inj (hmd.symm.trans h))
              · exact hne.2 (Except.error.inj (hmd.symm.trans h))
          | ok ck =>
              have hmd : (media_downloaded cfg store fs info now resp url).1
                  = .ok ⟨url, image_key url, some ck⟩ := by
                simp [media_downloaded, if_neg h1, if_neg hb, hid]
              rcases hor with h | h
              · exact Except.noConfusion (hmd.symm.trans h)
              · exact Except.noConfusion (hmd.symm.trans h)
      · exact Or.inl hst
    · intro hor
      rcases hor with hst | hb
      · exact Or.inl (by simp [media_downloaded, if_pos hst])
      · by_cases hst : resp.status = 200
        · have h1 : ¬ (resp.status ≠ 200) := by simp [hst]
          exact Or.inr (by simp [media_downloaded, if_neg h1, if_pos hb])
        · exact Or.inl (by simp [media_downloaded, if_pos hst])
  · intro ck s2 f2 hst hb hid
    have h1 : ¬ (resp.status ≠ 200) := by simp [hst]
    simp [media_downloaded, if_neg h1, if_neg hb, hid]

/-- Claim C7 counterexample. A 204 response with a non-empty body: 204
reports success in the spec's 2xx sense, yet `media_downloaded` raises
the download error instead of proceeding. -/
theorem claim_C7_counterexample :
    specReportsSuccess 204 = true
    ∧ ([7] : Bytes) ≠ []
    ∧ (media_downloaded wCfg wStore wFS wInfo 0 ⟨204, [7]⟩ wURL).1
        = .error .httpError := by
  refine ⟨rfl, by decide, by with_unfolding_all rfl⟩

/-- Witness for C7: a 404 produces the http download error, while the
well-formed 200 fixture proceeds through processing to a persisted
result. -/
theorem claim_C7_witness :
    ((media_downloaded wCfg wStore wFS wInfo 5 ⟨404, [0, 300, 300, 7, 8, 9]⟩ wURL).1
        = .error .httpError
      ∨ (media_downloaded wCfg wStore wFS wInfo 5 ⟨404, [0, 300, 300, 7, 8, 9]⟩ wURL).1
        = .error .emptyContent)
    ∧ media_downloaded wCfg wStore wFS wInfo 5 wResp wURL
        = (.ok ⟨wURL, image_key wURL, some (md5sum wBuf)⟩, wStoreOut, wFSOut) := by
  constructor
  · exact (claim_C7_download_validation wCfg wStore wFS wInfo 5
      ⟨404, [0, 300, 300, 7, 8, 9]⟩ wURL).1.mpr (Or.inl (by decide))
  · exact (claim_C7_download_validation wCfg wStore wFS wInfo 5 wResp wURL).2
      (md5sum wBuf) wStoreOut wFSOut rfl (by decide) (by with_unfolding_all rfl)

/-- The constructor `s3Init` only succeeds with an S3 store. -/
theorem s3Init_ok (uri : String) (s : StoreModel) (h : s3Init uri = .ok s) :
    ∃ b r, s = .s3Store b r := by
  simp only [s3Init] at h
  split at h
  · cases h
  · rename_i b r heq
    exact ⟨⟨b⟩, ⟨r⟩, (Except.ok.inj h).symm⟩

/-- Claim C9. Backend selection happens once, at pipeline construction,
by parsing the scheme of the configured store location URI: a scheme
outside `STORE_SCHEMES` makes construction fail with the lookup error,
so no pipeline value exists and nothing can run per-item; a successful
construction holds exactly the backend the scheme names; a falsy
location is `NotConfigured`. -/
theorem claim_C9_backend_selection (uri : String) (fs0 : FSState) :
    (STORE_SCHEMES (pyScheme uri) = none →
      pipelineInit (some uri) fs0 = .error .keyError)
    ∧ (∀ p fs', pipelineInit (some uri) fs0 = .ok (p, fs') →
        ∃ tag, STORE_SCHEMES (pyScheme uri) = some tag ∧ storeMatchesTag p tag = true)
    ∧ pipelineInit none fs0 = .error .notConfigured := by
  refine ⟨?_, ?_, rfl⟩
  · intro h
    have huri : ¬ (uri = "") := by
      intro he
      rw [he] at h
      exact absurd h (by decide)
    simp [pipelineInit, if_neg huri, get_store, h]
  · intro p fs' hok
    simp only [pipelineInit] at hok
    split at hok
    · cases hok
    · simp only [get_store] at hok
      split at hok
      · cases hok
      · rename_i heq
        injection hok with h1
        injection h1 with hp hf
        subst hp
        exact ⟨.fsTag, heq, rfl⟩
      · rename_i heq
        split at hok
        · cases hok
        · rename_i s heq2
          injection hok with h1
          injection h1 with hp hf
          subst hp
          obtain ⟨b, r, rfl⟩ := s3Init_ok _ _ heq2
          exact ⟨.s3Tag, heq, rfl⟩

/-- Witness for C9: an `ftp` scheme fails construction with the lookup
error; an `s3` URI constructs the S3 backend matching its scheme; a
missing location is `NotConfigured`. -/
theorem claim_C9_witness :
    pipelineInit (some "ftp://host/x") wFS = .error .keyError
    ∧ (∃ tag, STORE_SCHEMES (pyScheme "s3://bucket/img/") = some tag
        ∧ storeMatchesTag (.s3Store "bucket" "img/") tag = true)
    ∧ pipelineInit none wFS = .error .notConfigured := by
  refine ⟨(claim_C9_backend_selection "ftp://host/x" wFS).1 (by decide),
    (claim_C9_backend_selection "s3://bucket/img/" wFS).2.1 (.s3Store "bucket" "img/") wFS
      (by decide),
    (claim_C9_backend_selection "x" wFS).2.2⟩

/-- Claim C8 (behaviour at the failing input). First conjuncts: the
directory-creation work runs on the first persist and a repeated
persist for the same session repeats none of it — only the file write
happens — which is the at-most-once half of the claim. Last conjuncts:
the cache entry was keyed by the session *info object*, so
`domain_closed` with the session's domain string pops nothing — the
entry the claim says is discarded at session close survives it
verbatim. -/
theorem claim_C8_session_cache :
    (mkdirOnce wStore wFS "img/full" (some (.infoKey wInfo))).2.2 = true
    ∧ persist_image wStore wFS "full/a.jpg" c8Img [9] wInfo 0 = .ok (c8Store1, c8FS1)
    ∧ (mkdirOnce c8Store1 c8FS1 "img/full" (some (.infoKey wInfo))).2.2 = false
    ∧ persist_image c8Store1 c8FS1 "full/a.jpg" c8Img [9] wInfo 1
        = .ok (c8Store1, writeFile c8FS1 "img/full/a.jpg"
            (300 :: 300 :: strBytes "RGB" ++ [7]) 1)
    ∧ domain_closed c8Store1 "example.com" = c8Store1
    ∧ dictGet (domain_closed c8Store1 "example.com").created_directories
        (.infoKey wInfo) = ["img/full"] := by
  refine ⟨by decide, by decide, by decide, by decide, by decide, by decide⟩

/-- The helper `mkdirOnce` never changes the base directory. -/
theorem mkdirOnce_basedir (store : FSStore) (fs : FSState) (d : String)
    (dom : Option PyDictKey) :
    (mkdirOnce store fs d dom).1.basedir = store.basedir := by
  cases dom with
  | none => rfl
  | some k =>
      simp only [mkdirOnce]
      split <;> rfl

/-- The helper `mkdirOnce` touches directories only, never the files. -/
theorem mkdirOnce_files (store : FSStore) (fs : FSState) (d : String)
    (dom : Option PyDictKey) :
    (mkdirOnce store fs d dom).2.1.files = fs.files := by
  cases dom with
  | none =>
      simp only [mkdirOnce]
      split <;> rfl
  | some k =>
      simp only [mkdirOnce]
      split
      · rfl
      · split <;> rfl

/-- States with the same files answer the same lookups. -/
theorem lookupFile_files_eq {fs gs : FSState} (h : fs.files = gs.files) (p : String) :
    lookupFile fs p = lookupFile gs p := by
  simp [lookupFile, h]

/-- A write is immediately visible at its own path. -/
theorem lookupFile_writeFile_self (fs : FSState) (p : String) (c : Bytes) (t : Rat) :
    lookupFile (writeFile fs p c t) p = some ⟨c, t, true⟩ := by
  simp [lookupFile, writeFile]

/-- A write leaves every other path unchanged. -/
theorem lookupFile_writeFile_ne (fs : FSState) (p q : String) (c : Bytes) (t : Rat)
    (h : ¬ q = p) :
    lookupFile (writeFile fs q c t) p = lookupFile fs p := by
  simp [lookupFile, writeFile, List.find?_cons, h]

/-- What a successful `persist_image` guarantees: the image was
encoded, the base directory is unchanged, the encoded bytes sit at the
key's path, and every other path is untouched. -/
theorem persist_image_ok (store : FSStore) (fs : FSState) (key : String)
    (image : PILImage) (buf : Bytes) (info : SessionInfo) (now : Rat)
    (s' : FSStore) (f' : FSState)
    (h : persist_image store fs key image buf info now = .ok (s', f')) :
    ∃ bytes, pyJpegSave image = .ok bytes
      ∧ s'.basedir = store.basedir
      ∧ lookupFile f' (pyJoin store.basedir key) = some ⟨bytes, now, true⟩
      ∧ (∀ p, ¬ p = pyJoin store.basedir key → lookupFile f' p = lookupFile fs p) := by
  simp only [persist_image] at h
  split at h
  · rename_i bytes heq
    injection h with h1
    injection h1 with hs hf
    subst hs hf
    refine ⟨bytes, heq, mkdirOnce_basedir .., lookupFile_writeFile_self .., ?_⟩
    intro p hp
    rw [lookupFile_writeFile_ne _ _ _ _ _ (fun hq => hp hq.symm)]
    exact lookupFile_files_eq (mkdirOnce_files ..) p
  · cases h

/-- The thumbnail loop never changes the base directory. -/
theorem persistThumbs_basedir (info : SessionInfo) (now : Rat) (url : String)
    (image : PILImage) (thumbs : List (String × Nat × Nat)) :
    ∀ store fs res s2 f2,
      persistThumbs store fs info now url image thumbs = (res, s2, f2) →
      s2.basedir = store.basedir := by
  induction thumbs with
  | nil =>
      intro store fs res s2 f2 h
      simp only [persistThumbs] at h
      injection h with h1 h2
      injection h2 with h2 h3
      subst h2
      rfl
  | cons t rest ih =>
      intro store fs res s2 f2 h
      obtain ⟨tid, sz⟩ := t
      simp only [persistThumbs] at h
      split at h
      · injection h with h1 h2
        injection h2 with h2 h3
        subst h2
        rfl
      · rename_i ti tb heq
        split at h
        · injection h with h1 h2
          injection h2 with h2 h3
          subst h2
          rfl
        · rename_i s1 f1 heq2
          have hb := ih _ _ _ _ _ h
          obtain ⟨bytes, -, hbase, -, -⟩ :=
            persist_image_ok _ _ _ _ _ _ _ _ _ heq2
          rw [hb, hbase]

/-- The thumbnail loop leaves every path outside the thumbnail
namespace untouched. -/
theorem persistThumbs_lookup_preserved (info : SessionInfo) (now : Rat) (url : String)
    (image : PILImage) (thumbs : List (String × Nat × Nat)) :
    ∀ store fs res s2 f2 p,
      persistThumbs store fs info now url image thumbs = (res, s2, f2) →
      (∀ tid, ¬ p = pyJoin store.basedir (thumb_key url tid)) →
      lookupFile f2 p = lookupFile fs p := by
  induction thumbs with
  | nil =>
      intro store fs res s2 f2 p h hne
      simp only [persistThumbs] at h
      injection h with h1 h2
      injection h2 with h2 h3
      subst h3
      rfl
  | cons t rest ih =>
      intro store fs res s2 f2 p h hne
      obtain ⟨tid, sz⟩ := t
      simp only [persistThumbs] at h
      split at h
      · injection h with h1 h2
        injection h2 with h2 h3
        subst h3
        rfl
      · rename_i ti tb heq
        split at h
        · injection h with h1 h2
          injection h2 with h2 h3
          subst h3
          rfl
        · rename_i s1 f1 heq2
          obtain ⟨bytes, -, hbase, -, hother⟩ :=
            persist_image_ok _ _ _ _ _ _ _ _ _ heq2
          have h1 : lookupFile f1 p = lookupFile fs p := hother p (hne tid)
          have h2 : lookupFile f2 p = lookupFile f1 p := by
            refine ih _ _ _ _ _ _ h (fun tid2 => ?_)
            rw [hbase]
            exact hne tid2
          exact h2.trans h1

/-- A converted image's returned buffer is exactly its encoding. -/
theorem convert_image_save (im : PILImage) (sz : Option (Nat × Nat))
    (image : PILImage) (buf : Bytes)
    (h : convert_image im sz = .ok (image, buf)) : pyJpegSave image = .ok buf := by
  simp only [convert_image] at h
  split at h
  · rename_i buf2 heq
    injection h with h1
    injection h1 with hi hb
    subst hi hb
    exact heq
  · cases h

/-- Claim C1. Every successful `media_downloaded` run returns a
`PersistedResult` whose checksum is the checksum of the primary
variant's encoded bytes, and the filesystem backend holds exactly those
bytes under the result's path — hashing the file written for the
primary key yields the same checksum. -/
theorem claim_C1_checksum_matches_storage (cfg : ImagesConfig) (store : FSStore)
    (fs : FSState) (info : SessionInfo) (now : Rat) (resp : Response) (url : String)
    (r : PersistedResult) (store' : FSStore) (fs' : FSState)
    (h : media_downloaded cfg store fs info now resp url = (.ok r, store', fs')) :
    ∃ orig image buf,
      pyImageOpen resp.body = .ok orig
      ∧ convert_image orig none = .ok (image, buf)
      ∧ r.url = url
      ∧ r.path = image_key url
      ∧ r.checksum = some (md5sum buf)
      ∧ lookupFile fs' (pyJoin store'.basedir r.path) = some ⟨buf, now, true⟩ := by
  simp only [media_downloaded] at h
  split at h
  · exact absurd h (by simp)
  · split at h
    · exact absurd h (by simp)
    · rcases hid : image_downloaded cfg store fs info now resp url with ⟨res, s2, f2⟩
      rw [hid] at h
      cases res with
      | error e => exact absurd h (by simp)
      | ok ck =>
          injection h with h1 h2
          injection h2 with h2 h3
          injection h1 with h1
          subst h2 h3 h1
          simp only [image_downloaded] at hid
          split at hid
          · exact absurd hid (by simp)
          · rename_i orig heq_open
            split at hid
            · exact absurd hid (by simp)
            · split at hid
              · exact absurd hid (by simp)
              · rename_i image buf heq_conv
                split at hid
                · exact absurd hid (by simp)
                · rename_i s1 f1 heq_persist
                  rcases hpt : persistThumbs s1 f1 info now url image cfg.THUMBS
                    with ⟨tres, s3, f3⟩
                  rw [hpt] at hid
                  cases tres with
                  | error e => exact absurd hid (by simp)
                  | ok u =>
                      injection hid with hi1 hi2
                      injection hi2 with hi2 hi3
                      injection hi1 with hi1
                      subst hi2 hi3 hi1
                      obtain ⟨bytes, hsave, hbase1, hself, hother⟩ :=
                        persist_image_ok store fs (image_key url) image buf info now
                          s1 f1 heq_persist
                      have hbuf : pyJpegSave image = .ok buf :=
                        convert_image_save _ _ _ _ heq_conv
                      obtain rfl : buf = bytes := Except.ok.inj (hbuf.symm.trans hsave)
                      have hb2 : s3.basedir = s1.basedir :=
                        persistThumbs_basedir _ _ _ _ _ _ _ _ _ _ hpt
                      have hlook :
                          lookupFile f3 (pyJoin store.basedir (image_key url))
                            = lookupFile f1 (pyJoin store.basedir (image_key url)) := by
                        refine persistThumbs_lookup_preserved _ _ _ _ _ _ _ _ _ _ _ hpt
                          (fun tid => ?_)
                        rw [hbase1]
                        exact primary_path_ne_thumb_path store.basedir url url tid
                      refine ⟨orig, image, buf, heq_open, heq_conv, rfl, rfl, rfl, ?_⟩
                      dsimp only
                      rw [hb2, hbase1, hlook]
                      exact hself

/-- Witness for C1: running `media_downloaded` on the 300×300 fixture
leaves the primary variant's encoded bytes on disk under the result's
path, and the result's checksum is their hash. -/
theorem claim_C1_witness :
    ∃ orig image buf,
      pyImageOpen wResp.body = .ok orig
      ∧ convert_image orig none = .ok (image, buf)
      ∧ (⟨wURL, image_key wURL, some (md5sum wBuf)⟩ : PersistedResult).url = wURL
      ∧ (⟨wURL, image_key wURL, some (md5sum wBuf)⟩ : PersistedResult).path = image_key wURL
      ∧ (⟨wURL, image_key wURL, some (md5sum wBuf)⟩ : PersistedResult).checksum
          = some (md5sum buf)
      ∧ lookupFile wFSOut (pyJoin wStoreOut.basedir
          (⟨wURL, image_key wURL, some (md5sum wBuf)⟩ : PersistedResult).path)
          = some ⟨buf, 5, true⟩ :=
  claim_C1_checksum_matches_storage wCfg wStore wFS wInfo 5 wResp wURL
    ⟨wURL, image_key wURL, some (md5sum wBuf)⟩ wStoreOut wFSOut
    (by with_unfolding_all rfl)

end Images
